import Mathlib

/-!
# DebuggerCallFrame: frame inspection and nested evaluation

A shallow embedding of `JavaScriptCore/kjs/DebuggerCallFrame.cpp`.

* Pointers that may be null (`JSValue*`, `CodeBlock*`, `RefPtr<EvalNode>`) are `Option`s.
* `Register* m_registers` is an address into the machine's register store, and
  `m_registers[i]` reads the cell at address `m_registers + i`; two holders of the same
  address see the same cells.
* An out-parameter (`JSValue*& exception`, `&errLine`, ...) is a value passed in and a
  value handed back.
* The parser, the interpreter, `JSFunction::name` and the constant `RegisterFile::Callee`
  are not part of this file's source: they are the fields of `Engine`, and every theorem
  holds for all of them.
* Each call into the parser or the interpreter is recorded, in order, in a call log.
* `evaluateStateful` is the same body over a parser and an interpreter that carry an
  engine state from call to call, so that the number of calls shows in the final state.
* `JSBase.h` only declares the host evaluation surface; `JSEvaluateScript` and
  `JSCheckScriptSyntax` are modelled from the specification and the header's parameter
  documentation.
-/

namespace JSC

/-- Engine strings (`UString`). -/
abbrev UString := String

/-- Modelled from the spec: the kinds of engine-native error values (`ErrorType`, declared
outside this source); section 7 of the spec names the Syntax kind. -/
inductive ErrorType
  | GeneralError
  | EvalError
  | RangeError
  | ReferenceError
  | SyntaxError
  | TypeError
  | URIError
  deriving DecidableEq, Repr

/-- Modelled from the spec: the cells a `JSValue*` can point to (the class is declared
outside this source). Functions are the callable cells; an error cell records the
arguments `Error::create` was given. -/
inductive JSValue
  | number (n : Int)
  | string (s : UString)
  | object (id : Nat)
  | function (id : Nat) (name : UString)
  | error (type : ErrorType) (message : UString) (lineNumber : Int) (sourceId : Int)
      (sourceURL : Option UString)
  deriving DecidableEq, Repr

/-- A register: the `JSValue*` it holds, null when empty. -/
structure Register where
  jsValue : Option JSValue
  deriving DecidableEq, Repr

/-- The accessor `Register::getJSValue()`. -/
def Register.getJSValue (r : Register) : Option JSValue := r.jsValue

/-- A `Register*`: an address in the register store. -/
abbrev RegisterPtr := Int

/-- The machine's live register storage, by address. -/
abbrev RegisterStore := Int → Register

/-- Pointer indexing `base[i]` on the register store. -/
def registerAt (mem : RegisterStore) (base : RegisterPtr) (i : Int) : Register :=
  mem (base + i)

/-- The code layout of a frame (`CodeBlock`); only `thisRegister` is read here. -/
structure CodeBlock where
  thisRegister : Int
  deriving DecidableEq, Repr

/-- A global object, by identity. -/
structure JSGlobalObject where
  id : Nat
  deriving DecidableEq, Repr

/-- A scope chain (`ScopeChainNode*`), by identity, with the global object it ends in. -/
structure ScopeChainNode where
  id : Nat
  global : JSGlobalObject
  deriving DecidableEq, Repr

/-- The accessor `ScopeChainNode::globalObject()`. -/
def ScopeChainNode.globalObject (s : ScopeChainNode) : JSGlobalObject := s.global

/-- An execution state as built by `ExecState(globalObject, registers)`. -/
structure ExecState where
  globalObject : JSGlobalObject
  registers : RegisterPtr
  deriving DecidableEq, Repr

/-- A source buffer handed to the parser. -/
structure SourceProvider where
  source : UString
  deriving DecidableEq, Repr

/-- The factory `UStringSourceProvider::create(script)`. -/
def UStringSourceProvider.create (script : UString) : SourceProvider :=
  SourceProvider.mk script

/-- Modelled from the spec: a parsed eval unit (`EvalNode`), identified by the text it was
parsed from. -/
structure EvalNode where
  source : UString
  deriving DecidableEq, Repr

/-- What `parse<EvalNode>` hands back: the node (null on rejection) and the three
out-parameters `sourceId`, `errLine`, `errMsg`. -/
structure ParseResult where
  node : Option EvalNode
  sourceId : Int
  errLine : Int
  errMsg : UString
  deriving DecidableEq, Repr

/-- What `Machine::execute` hands back: its return value, the content of the exception
slot it was given the address of, and the register store after the run. -/
structure ExecuteResult where
  value : Option JSValue
  exception : Option JSValue
  registers : RegisterStore

/-- The collaborators and constants this source uses but does not define. -/
structure Engine where
  /-- The header slot index `RegisterFile::Callee`. -/
  Callee : Int
  /-- The method `JSFunction::name(exec)`, applied to the cell the callee slot points to. -/
  name : JSValue → ExecState → UString
  /-- The call `parser()->parse<EvalNode>(exec, sourceURL, startingLine, source, ...)`. -/
  parse : ExecState → UString → Int → SourceProvider → ParseResult
  /-- The call `machine()->execute(evalNode, exec, thisObj, scopeChain, &exception)`, run
  on the register store and the entry content of the exception slot. -/
  execute : RegisterStore → EvalNode → ExecState → Option JSValue → ScopeChainNode →
    Option JSValue → ExecuteResult

/-- One recorded call into a collaborator, with the arguments it received. -/
inductive Call
  | parse (exec : ExecState) (sourceURL : UString) (startingLine : Int)
      (source : SourceProvider)
  | execute (node : EvalNode) (exec : ExecState) (thisObj : Option JSValue)
      (scopeChain : ScopeChainNode) (exceptionIn : Option JSValue)
  deriving DecidableEq, Repr

/-- The execution state a recorded call received. -/
def Call.exec : Call → ExecState
  | Call.parse e _ _ _ => e
  | Call.execute _ e _ _ _ => e

/-- Modelled from the spec: `Error::create(exec, type, message, line, sourceId, sourceURL)`
(defined outside this source) synthesises an engine-native error value carrying the kind,
message and line it is given. -/
def Error.create (_exec : ExecState) (type : ErrorType) (message : UString)
    (lineNumber : Int) (sourceId : Int) (sourceURL : Option UString) : JSValue :=
  JSValue.error type message lineNumber sourceId sourceURL

/-- The enumeration `DebuggerCallFrame::Type`. -/
inductive FrameType
  | ProgramType
  | FunctionType
  deriving DecidableEq, Repr

/-- The members of `DebuggerCallFrame`. -/
structure DebuggerCallFrame where
  m_exec : ExecState
  m_codeBlock : Option CodeBlock
  m_scopeChain : ScopeChainNode
  m_registers : RegisterPtr
  deriving DecidableEq, Repr

namespace DebuggerCallFrame

/-- The content of the callee slot, `m_registers[RegisterFile::Callee].getJSValue()`. -/
def calleeValue (E : Engine) (mem : RegisterStore) (f : DebuggerCallFrame) :
    Option JSValue :=
  (registerAt mem f.m_registers E.Callee).getJSValue

/-- The method `DebuggerCallFrame::functionName()`: null without a code block, null with
an empty callee slot, otherwise the address of the callee's name. -/
def functionName (E : Engine) (mem : RegisterStore) (f : DebuggerCallFrame) :
    Option UString :=
  match f.m_codeBlock with
  | none => none
  | some _ =>
    match (registerAt mem f.m_registers E.Callee).getJSValue with
    | none => none
    | some function => some (E.name function f.m_exec)

/-- The method `DebuggerCallFrame::type()`. -/
def type (E : Engine) (mem : RegisterStore) (f : DebuggerCallFrame) : FrameType :=
  match (registerAt mem f.m_registers E.Callee).getJSValue with
  | some _ => FrameType.FunctionType
  | none => FrameType.ProgramType

/-- The method `DebuggerCallFrame::thisObject()`. -/
def thisObject (mem : RegisterStore) (f : DebuggerCallFrame) : Option JSValue :=
  match f.m_codeBlock with
  | none => none
  | some codeBlock => (registerAt mem f.m_registers codeBlock.thisRegister).getJSValue

/-- What one call of `evaluate` leaves behind: the returned pointer, the content of the
caller's exception slot, the register store, and the collaborator calls made. -/
structure EvaluateResult where
  value : Option JSValue
  exception : Option JSValue
  registers : RegisterStore
  calls : List Call

/-- The method `DebuggerCallFrame::evaluate(script, exception)`; `exception` is the
content of the caller's slot on entry. -/
def evaluate (E : Engine) (mem : RegisterStore) (f : DebuggerCallFrame) (script : UString)
    (exception : Option JSValue) : EvaluateResult :=
  match f.m_codeBlock with
  | none => EvaluateResult.mk none exception mem []
  | some _ =>
    let newExec : ExecState := ExecState.mk f.m_scopeChain.globalObject f.m_registers
    let sourceProvider := UStringSourceProvider.create script
    let parsed := E.parse newExec "" 1 sourceProvider
    match parsed.node with
    | none =>
      EvaluateResult.mk
        (some (Error.create newExec ErrorType.SyntaxError parsed.errMsg parsed.errLine
          parsed.sourceId none))
        exception mem [Call.parse newExec "" 1 sourceProvider]
    | some evalNode =>
      let run := E.execute mem evalNode newExec (thisObject mem f) f.m_scopeChain exception
      EvaluateResult.mk run.value run.exception run.registers
        [Call.parse newExec "" 1 sourceProvider,
         Call.execute evalNode newExec (thisObject mem f) f.m_scopeChain exception]

end DebuggerCallFrame

/-! ## The evaluator over collaborators with state

In the definitions above the parser is a function of its arguments, so a second call with
the same arguments could not be told from the first. Here every parser or interpreter
call takes the engine state it finds and leaves a new one. -/

/-- What an interpreter call hands back besides the new engine state: its return value
and the content of the exception slot. -/
structure ExecuteReturn where
  value : Option JSValue
  exception : Option JSValue
  deriving DecidableEq, Repr

/-- The parser and the interpreter as operations on an engine state `W`, which holds the
register storage. -/
structure StatefulEngine (W : Type) where
  /-- The register storage held in an engine state. -/
  registers : W → RegisterStore
  /-- The call `parser()->parse<EvalNode>(exec, sourceURL, startingLine, source, ...)`. -/
  parse : W → ExecState → UString → Int → SourceProvider → ParseResult × W
  /-- The call `machine()->execute(evalNode, exec, thisObj, scopeChain, &exception)`. -/
  execute : W → EvalNode → ExecState → Option JSValue → ScopeChainNode →
    Option JSValue → ExecuteReturn × W

/-- What one call of `evaluate` leaves behind over an engine with state: the returned
pointer, the content of the caller's exception slot and the engine state. -/
structure StatefulResult (W : Type) where
  value : Option JSValue
  exception : Option JSValue
  world : W

/-- The method `DebuggerCallFrame::evaluate(script, exception)` over an engine with state:
the statements of the body in their order, each collaborator call on the engine state
left by the one before; `thisObject()` is read once the parser has returned. -/
def DebuggerCallFrame.evaluateStateful {W : Type} (S : StatefulEngine W) (w : W)
    (f : DebuggerCallFrame) (script : UString) (exception : Option JSValue) :
    StatefulResult W :=
  match f.m_codeBlock with
  | none => StatefulResult.mk none exception w
  | some _ =>
    let newExec : ExecState := ExecState.mk f.m_scopeChain.globalObject f.m_registers
    let sourceProvider := UStringSourceProvider.create script
    let parsed := S.parse w newExec "" 1 sourceProvider
    match parsed.1.node with
    | none =>
      StatefulResult.mk
        (some (Error.create newExec ErrorType.SyntaxError parsed.1.errMsg parsed.1.errLine
          parsed.1.sourceId none))
        exception parsed.2
    | some evalNode =>
      let run := S.execute parsed.2 evalNode newExec
        (DebuggerCallFrame.thisObject (S.registers parsed.2) f) f.m_scopeChain exception
      StatefulResult.mk run.1.value run.1.exception run.2

/-- An engine without parser state seen as an engine with state: the engine state is the
register storage, which the parser leaves alone and the interpreter may change. -/
def Engine.stateful (E : Engine) : StatefulEngine RegisterStore :=
  StatefulEngine.mk (fun w => w)
    (fun w exec sourceURL startingLine source =>
      (E.parse exec sourceURL startingLine source, w))
    (fun w node exec thisObj scopeChain exception =>
      (ExecuteReturn.mk (E.execute w node exec thisObj scopeChain exception).value
          (E.execute w node exec thisObj scopeChain exception).exception,
        (E.execute w node exec thisObj scopeChain exception).registers))

/-! ## A small concrete engine, used to run the definitions -/

/-- A sample parser: it rejects the snippet `(` at its starting line and accepts any other
text. -/
def sampleParse (_exec : ExecState) (_sourceURL : UString) (startingLine : Int)
    (source : SourceProvider) : ParseResult :=
  if source.source = "(" then ParseResult.mk none 1 startingLine "Parse error"
  else ParseResult.mk (some (EvalNode.mk source.source)) 1 0 ""

/-- A sample interpreter: `1+1` yields 2, `throw 0` raises the number 0 and returns
nothing, any other unit yields the receiver it was given. The registers are untouched. -/
def sampleExecute (mem : RegisterStore) (node : EvalNode) (_exec : ExecState)
    (thisObj : Option JSValue) (_scopeChain : ScopeChainNode)
    (exception : Option JSValue) : ExecuteResult :=
  if node.source = "1+1" then ExecuteResult.mk (some (JSValue.number 2)) exception mem
  else if node.source = "throw 0" then ExecuteResult.mk none (some (JSValue.number 0)) mem
  else ExecuteResult.mk thisObj exception mem

/-- A sample `JSFunction::name`: the name a function cell carries. -/
def sampleName (v : JSValue) (_exec : ExecState) : UString :=
  match v with
  | JSValue.function _ n => n
  | _ => ""

/-- A sample engine with the callee slot two cells below the frame base. -/
def sampleEngine : Engine :=
  Engine.mk (-2) sampleName sampleParse sampleExecute

/-- A sample register store: a function named `f` at address 8, an anonymous function at
address 18, receiver objects at 10, 11 and 20, and empty
cells elsewhere. -/
def sampleStore : RegisterStore := fun a =>
  if a = 8 then Register.mk (some (JSValue.function 1 "f"))
  else if a = 10 then Register.mk (some (JSValue.object 100))
  else if a = 11 then Register.mk (some (JSValue.object 101))
  else if a = 18 then Register.mk (some (JSValue.function 2 ""))
  else if a = 20 then Register.mk (some (JSValue.object 102))
  else Register.mk none

/-- A sample scope chain. -/
def sampleScope : ScopeChainNode := ScopeChainNode.mk 1 (JSGlobalObject.mk 7)

/-- A sample caller state. -/
def sampleExec : ExecState := ExecState.mk (JSGlobalObject.mk 7) 0

/-- A function frame based at address 10, receiver in register 0. -/
def functionFrame : DebuggerCallFrame :=
  DebuggerCallFrame.mk sampleExec (some (CodeBlock.mk 0)) sampleScope 10

/-- The same frame with the receiver in register 1. -/
def functionFrameThis1 : DebuggerCallFrame :=
  DebuggerCallFrame.mk sampleExec (some (CodeBlock.mk 1)) sampleScope 10

/-- A function frame based at address 20 whose callee has the empty name. -/
def anonymousFrame : DebuggerCallFrame :=
  DebuggerCallFrame.mk sampleExec (some (CodeBlock.mk 0)) sampleScope 20

/-- A program frame based at address 40: code layout present, empty callee slot, and an
empty receiver register. -/
def programFrame : DebuggerCallFrame :=
  DebuggerCallFrame.mk sampleExec (some (CodeBlock.mk 0)) sampleScope 40

/-- A frame without code layout, based at address 10 (its callee slot is populated). -/
def nativeFrame : DebuggerCallFrame :=
  DebuggerCallFrame.mk sampleExec none sampleScope 10

/-- A probing parser: it rejects `(`, reporting as source id and error line the global
object and the register pointer of the state it was handed, and accepts any other text. -/
def probeParse (exec : ExecState) (_sourceURL : UString) (_startingLine : Int)
    (source : SourceProvider) : ParseResult :=
  if source.source = "(" then
    ParseResult.mk none (Int.ofNat exec.globalObject.id) exec.registers "Parse error"
  else ParseResult.mk (some (EvalNode.mk source.source)) 0 0 ""

/-- A probing interpreter: it returns the register pointer of the state it was handed,
raises the global object of that state, and stores 42 in register 0 of that state's
register window. -/
def probeExecute (mem : RegisterStore) (_node : EvalNode) (exec : ExecState)
    (_thisObj : Option JSValue) (_scopeChain : ScopeChainNode)
    (_exception : Option JSValue) : ExecuteResult :=
  ExecuteResult.mk (some (JSValue.number exec.registers))
    (some (JSValue.object exec.globalObject.id))
    (fun a => if a = exec.registers + 0 then Register.mk (some (JSValue.number 42))
      else mem a)

/-- The sample engine with the probing parser and interpreter. -/
def probeEngine : Engine := Engine.mk (-2) sampleName probeParse probeExecute

/-- A counting engine over the sample store: its state is the number of parser calls and
the number of interpreter calls made so far; each call answers as the sample engine does
and adds one to its counter. -/
def countingEngine : StatefulEngine (Nat × Nat) :=
  StatefulEngine.mk (fun _ => sampleStore)
    (fun w exec sourceURL startingLine source =>
      (sampleParse exec sourceURL startingLine source, (w.1 + 1, w.2)))
    (fun w node exec thisObj scopeChain exception =>
      (ExecuteReturn.mk
          (sampleExecute sampleStore node exec thisObj scopeChain exception).value
          (sampleExecute sampleStore node exec thisObj scopeChain exception).exception,
        (w.1, w.2 + 1)))

/-! ## Counting collaborator calls -/

/-- Whether a recorded call is a call of the parser. -/
def Call.isParse : Call → Bool
  | Call.parse _ _ _ _ => true
  | Call.execute _ _ _ _ _ => false

/-- Whether a recorded call is a call of the interpreter. -/
def Call.isExecute : Call → Bool
  | Call.parse _ _ _ _ => false
  | Call.execute _ _ _ _ _ => true

/-! ## The host evaluation surface

`JSBase.h` declares `JSEvaluateScript` and `JSCheckScriptSyntax` and documents their
parameters; their bodies are not part of the source. -/

/-- Modelled from the spec: a parsed top-level program, the `ParsedUnit` the Parser of
section 6 yields for `evaluateScript` and `checkScriptSyntax`; the type of the unit is
missing from the source. -/
structure ProgramNode where
  source : UString
  deriving DecidableEq, Repr

/-- Modelled from the spec: what the Parser of section 6 hands back for a top-level
program, a unit or an error line and message, in the shape of `ParseResult`; the
program parser is missing from the source. -/
structure ProgramParseResult where
  node : Option ProgramNode
  sourceId : Int
  errLine : Int
  errMsg : UString
  deriving DecidableEq, Repr

/-- Modelled from the spec: the receiver of a top-level run, `thisOverride` or, when that
is absent, the global object of the context (section 4.3); the receiver type is missing
from the source. -/
inductive Receiver
  | globalObject (g : JSGlobalObject)
  | override (v : JSValue)
  deriving DecidableEq, Repr

/-- Modelled from the spec: what the Machine entry point of section 6 yields for a
top-level run, a value and the exception it raised, if any; the entry point is missing
from the source. -/
structure HostRun where
  value : Option JSValue
  exception : Option JSValue
  deriving DecidableEq, Repr

/-- Modelled from the spec: the Parser and the Machine that the host evaluation surface
consumes (section 6), missing from the source. -/
structure HostEngine where
  /-- The Parser, `parse(contextState, sourceURL, startingLine, sourceBuffer)`. -/
  parse : ExecState → UString → Int → SourceProvider → ProgramParseResult
  /-- The Machine, `execute(parsedUnit, contextState, thisValue, ...)`. -/
  execute : ProgramNode → ExecState → Receiver → HostRun

/-- One recorded collaborator call of the host surface. -/
inductive HostCall
  | parse (ctx : ExecState) (sourceURL : UString) (startingLine : Int)
      (source : SourceProvider)
  | execute (unit : ProgramNode) (ctx : ExecState) (thisValue : Receiver)
  deriving DecidableEq, Repr

/-- Whether a recorded host call is a call of the interpreter. -/
def HostCall.isExecute : HostCall → Bool
  | HostCall.parse _ _ _ _ => false
  | HostCall.execute _ _ _ => true

/-- The outcome of `JSCheckScriptSyntax`: the returned flag, the caller's exception
output (absent when the caller passed NULL) and the collaborator calls made. -/
structure CheckSyntaxResult where
  result : Bool
  exception : Option (Option JSValue)
  calls : List HostCall
  deriving DecidableEq, Repr

/-- Modelled from the spec: the body of `JSCheckScriptSyntax` is missing from the source.
It "parses without executing; returns a boolean validity flag and, on invalid syntax,
populates the exception output with a Syntax-kind error" (section 4.3); the starting line
is "clamped to 1", a NULL `sourceURL` means no source information and a NULL `exception`
means the caller stores nothing (`JSBase.h`). -/
def JSCheckScriptSyntax (H : HostEngine) (ctx : ExecState) (script : UString)
    (sourceURL : Option UString) (startingLineNumber : Int)
    (exception : Option (Option JSValue)) : CheckSyntaxResult :=
  let line := max startingLineNumber 1
  let url := sourceURL.getD ""
  let source := UStringSourceProvider.create script
  let parsed := H.parse ctx url line source
  match parsed.node with
  | none =>
    CheckSyntaxResult.mk false
      (exception.map (fun _ =>
        some (Error.create ctx ErrorType.SyntaxError parsed.errMsg parsed.errLine
          parsed.sourceId sourceURL)))
      [HostCall.parse ctx url line source]
  | some _ => CheckSyntaxResult.mk true exception [HostCall.parse ctx url line source]

/-- A sample program parser: it rejects `function(){` and `(` at the starting line it
is given and accepts any other text. -/
def sampleHostParse (_ctx : ExecState) (_sourceURL : UString) (startingLine : Int)
    (source : SourceProvider) : ProgramParseResult :=
  if source.source = "function()\x7b" ∨ source.source = "(" then
    ProgramParseResult.mk none 1 startingLine "Parse error"
  else ProgramParseResult.mk (some (ProgramNode.mk source.source)) 1 0 ""

/-- A sample top-level interpreter: `1+1` yields 2, `throw 0` raises the number 0, any
other program yields nothing. -/
def sampleHostExecute (unit : ProgramNode) (_ctx : ExecState) (_thisValue : Receiver) :
    HostRun :=
  if unit.source = "1+1" then HostRun.mk (some (JSValue.number 2)) none
  else if unit.source = "throw 0" then HostRun.mk none (some (JSValue.number 0))
  else HostRun.mk none none

/-- A sample host engine. -/
def sampleHost : HostEngine := HostEngine.mk sampleHostParse sampleHostExecute

open DebuggerCallFrame

/-! ## The nested evaluator -/

/-- Claim C1, refuted as stated: on the frame without code layout, with the exception slot
empty on entry, `evaluate` returns an absent result although the exception slot is still
empty when it returns. -/
theorem evaluate_null_iff_exception_counterexample :
    ¬ ((evaluate sampleEngine sampleStore nativeFrame "1+1" none).value = none ↔
        (evaluate sampleEngine sampleStore nativeFrame "1+1" none).exception ≠ none) := by
  decide

/-- Claim C1, amended: with the exception slot empty on entry, the slot is populated on
return exactly when the frame has a code layout, the parser accepts the text and
`execute` populates the slot; the result is absent exactly when the frame has no code
layout or `execute` on the accepted unit returns an absent result; and for a frame with a
code layout the result is absent iff the slot is populated as soon as `execute` itself
returns an absent result exactly when it populates the slot. -/
theorem evaluate_exception_slot_contract (E : Engine) (mem : RegisterStore)
    (f : DebuggerCallFrame) (script : UString) :
    ((evaluate E mem f script none).exception ≠ none ↔
      ∃ cb u, f.m_codeBlock = some cb ∧
        (E.parse (ExecState.mk f.m_scopeChain.globalObject f.m_registers) "" 1
          (UStringSourceProvider.create script)).node = some u ∧
        (E.execute mem u (ExecState.mk f.m_scopeChain.globalObject f.m_registers)
          (thisObject mem f) f.m_scopeChain none).exception ≠ none) ∧
    ((evaluate E mem f script none).value = none ↔
      f.m_codeBlock = none ∨
      ∃ u, (E.parse (ExecState.mk f.m_scopeChain.globalObject f.m_registers) "" 1
          (UStringSourceProvider.create script)).node = some u ∧
        (E.execute mem u (ExecState.mk f.m_scopeChain.globalObject f.m_registers)
          (thisObject mem f) f.m_scopeChain none).value = none) ∧
    (f.m_codeBlock ≠ none →
      (∀ u, (E.execute mem u (ExecState.mk f.m_scopeChain.globalObject f.m_registers)
            (thisObject mem f) f.m_scopeChain none).value = none ↔
          (E.execute mem u (ExecState.mk f.m_scopeChain.globalObject f.m_registers)
            (thisObject mem f) f.m_scopeChain none).exception ≠ none) →
      ((evaluate E mem f script none).value = none ↔
        (evaluate E mem f script none).exception ≠ none)) := by
  unfold evaluate
  cases hcb : f.m_codeBlock with
  | none => simp
  | some cb =>
    cases hp : (E.parse (ExecState.mk f.m_scopeChain.globalObject f.m_registers) "" 1
        (UStringSourceProvider.create script)).node with
    | none => simp [hp]
    | some u =>
      simp only [hp]
      refine ⟨?_, ?_, ?_⟩
      · simp
      · simp
      · intro _ h
        exact h u

/-- The amended C1 on the sample engine, whose interpreter returns an absent result exactly
when it raises: on the function frame the snippet `throw 0` gives an absent result with a
populated slot, and the rejected snippet `(` gives a present result with an empty slot. -/
theorem evaluate_exception_slot_contract_witness :
    ((evaluate sampleEngine sampleStore functionFrame "throw 0" none).value = none ↔
      (evaluate sampleEngine sampleStore functionFrame "throw 0" none).exception ≠ none) ∧
    (evaluate sampleEngine sampleStore functionFrame "throw 0" none).exception ≠ none ∧
    ((evaluate sampleEngine sampleStore functionFrame "(" none).value = none ↔
      (evaluate sampleEngine sampleStore functionFrame "(" none).exception ≠ none) := by
  have hrun : ∀ u : EvalNode,
      (sampleEngine.execute sampleStore u
          (ExecState.mk functionFrame.m_scopeChain.globalObject functionFrame.m_registers)
          (thisObject sampleStore functionFrame) functionFrame.m_scopeChain none).value = none ↔
        (sampleEngine.execute sampleStore u
          (ExecState.mk functionFrame.m_scopeChain.globalObject functionFrame.m_registers)
          (thisObject sampleStore functionFrame) functionFrame.m_scopeChain none).exception
          ≠ none := by
    intro u
    have hthis : thisObject sampleStore functionFrame = some (JSValue.object 100) := by
      decide
    rw [hthis]
    simp only [sampleEngine, sampleExecute]
    by_cases h1 : u.source = "1+1"
    · simp [h1]
    · by_cases h2 : u.source = "throw 0"
      · simp [h2]
      · simp [h1, h2]
  exact ⟨(evaluate_exception_slot_contract sampleEngine sampleStore functionFrame
      "throw 0").2.2 (by decide) hrun,
    by decide,
    (evaluate_exception_slot_contract sampleEngine sampleStore functionFrame
      "(").2.2 (by decide) hrun⟩

/-- Claim C2, refuted as stated: on a frame with a code layout and the rejected one-line
snippet `(`, `evaluate` does not return an absent result with a Syntax error in the
exception slot; the result is present. -/
theorem evaluate_syntax_error_in_slot_counterexample :
    ¬ ((evaluate sampleEngine sampleStore functionFrame "(" none).value = none ∧
        ∃ msg sid url, (evaluate sampleEngine sampleStore functionFrame "(" none).exception =
          some (JSValue.error ErrorType.SyntaxError msg 1 sid url)) := by
  intro h
  exact absurd h.1 (by decide)

/-- Claim C2, amended: for a frame that has a code layout and a source text the parser
rejects, `evaluate` returns, as its result, a present Syntax-kind error value whose line
is the failing line reported by the parser, and leaves the exception slot as it was on
entry. -/
theorem evaluate_parse_failure_returns_syntax_error (E : Engine) (mem : RegisterStore)
    (f : DebuggerCallFrame) (script : UString) (exception : Option JSValue)
    (cb : CodeBlock) (hcb : f.m_codeBlock = some cb)
    (hrej : (E.parse (ExecState.mk f.m_scopeChain.globalObject f.m_registers) "" 1
      (UStringSourceProvider.create script)).node = none) :
    (∃ msg sid url, (evaluate E mem f script exception).value =
      some (JSValue.error ErrorType.SyntaxError msg
        (E.parse (ExecState.mk f.m_scopeChain.globalObject f.m_registers) "" 1
          (UStringSourceProvider.create script)).errLine sid url)) ∧
    (evaluate E mem f script exception).exception = exception := by
  unfold evaluate
  simp only [hcb, hrej, Error.create]
  exact ⟨⟨_, _, _, rfl⟩, trivial⟩

/-- The amended C2 at the snippet `(`: the result is a Syntax error of line 1 and the
exception slot stays empty. -/
theorem evaluate_parse_failure_returns_syntax_error_witness :
    (functionFrame.m_codeBlock = some (CodeBlock.mk 0) ∧
      (sampleEngine.parse
        (ExecState.mk functionFrame.m_scopeChain.globalObject functionFrame.m_registers) "" 1
        (UStringSourceProvider.create "(")).node = none) ∧
    (∃ msg sid url, (evaluate sampleEngine sampleStore functionFrame "(" none).value =
      some (JSValue.error ErrorType.SyntaxError msg 1 sid url)) ∧
    (evaluate sampleEngine sampleStore functionFrame "(" none).exception = none :=
  ⟨⟨rfl, rfl⟩,
    evaluate_parse_failure_returns_syntax_error sampleEngine sampleStore functionFrame "("
      none (CodeBlock.mk 0) rfl rfl⟩

/-- Claim C3: for a frame that has a code layout and a source text the parser rejects
with `(errLine, errMsg)`, `evaluate` yields the engine-native error value of kind
SyntaxError carrying exactly that line and that message. -/
theorem evaluate_syntax_error_carries_line_and_message (E : Engine) (mem : RegisterStore)
    (f : DebuggerCallFrame) (script : UString) (exception : Option JSValue)
    (cb : CodeBlock) (sourceId errLine : Int) (errMsg : UString)
    (hcb : f.m_codeBlock = some cb)
    (hrej : E.parse (ExecState.mk f.m_scopeChain.globalObject f.m_registers) "" 1
      (UStringSourceProvider.create script) = ParseResult.mk none sourceId errLine errMsg) :
    (evaluate E mem f script exception).value =
      some (JSValue.error ErrorType.SyntaxError errMsg errLine sourceId none) := by
  unfold evaluate
  simp only [hcb, hrej]
  rfl

/-- Claim C3 at the snippet `(` on the sample engine. -/
theorem evaluate_syntax_error_carries_line_and_message_witness :
    (functionFrame.m_codeBlock = some (CodeBlock.mk 0) ∧
      sampleEngine.parse
        (ExecState.mk functionFrame.m_scopeChain.globalObject functionFrame.m_registers) "" 1
        (UStringSourceProvider.create "(") = ParseResult.mk none 1 1 "Parse error") ∧
    (evaluate sampleEngine sampleStore functionFrame "(" none).value =
      some (JSValue.error ErrorType.SyntaxError "Parse error" 1 1 none) :=
  ⟨⟨rfl, rfl⟩,
    evaluate_syntax_error_carries_line_and_message sampleEngine sampleStore functionFrame "("
      none (CodeBlock.mk 0) 1 1 "Parse error" rfl rfl⟩

/-- Claim C4: for a frame with no code layout, `evaluate` returns an absent result, leaves
the exception slot exactly as it was on entry, calls neither the parser nor the
interpreter, and leaves the registers untouched. -/
theorem evaluate_without_layout_is_silent (E : Engine) (mem : RegisterStore)
    (f : DebuggerCallFrame) (script : UString) (exception : Option JSValue)
    (h : f.m_codeBlock = none) :
    (evaluate E mem f script exception).value = none ∧
    (evaluate E mem f script exception).exception = exception ∧
    (evaluate E mem f script exception).calls = [] ∧
    (evaluate E mem f script exception).registers = mem := by
  unfold evaluate
  simp only [h]
  exact ⟨trivial, trivial, trivial, trivial⟩

/-- Claim C4 on the frame without code layout, with a populated slot on entry. -/
theorem evaluate_without_layout_is_silent_witness :
    nativeFrame.m_codeBlock = none ∧
    (evaluate sampleEngine sampleStore nativeFrame "1+1" (some (JSValue.number 5))).value
      = none ∧
    (evaluate sampleEngine sampleStore nativeFrame "1+1" (some (JSValue.number 5))).exception
      = some (JSValue.number 5) ∧
    (evaluate sampleEngine sampleStore nativeFrame "1+1" (some (JSValue.number 5))).calls
      = [] ∧
    (evaluate sampleEngine sampleStore nativeFrame "1+1" (some (JSValue.number 5))).registers
      = sampleStore :=
  ⟨rfl,
    evaluate_without_layout_is_silent sampleEngine sampleStore nativeFrame "1+1"
      (some (JSValue.number 5)) rfl⟩

/-- Claim C5: for a frame that has a code layout and a source text the parser accepts as
unit `u`, the result, the final exception slot and the final registers of `evaluate` are
exactly those of `execute u newExec thisObject() m_scopeChain &exception`, and the one
interpreter call made is that call. -/
theorem evaluate_runs_execute (E : Engine) (mem : RegisterStore)
    (f : DebuggerCallFrame) (script : UString) (exception : Option JSValue)
    (cb : CodeBlock) (u : EvalNode) (hcb : f.m_codeBlock = some cb)
    (hok : (E.parse (ExecState.mk f.m_scopeChain.globalObject f.m_registers) "" 1
      (UStringSourceProvider.create script)).node = some u) :
    (evaluate E mem f script exception).value =
      (E.execute mem u (ExecState.mk f.m_scopeChain.globalObject f.m_registers)
        (thisObject mem f) f.m_scopeChain exception).value ∧
    (evaluate E mem f script exception).exception =
      (E.execute mem u (ExecState.mk f.m_scopeChain.globalObject f.m_registers)
        (thisObject mem f) f.m_scopeChain exception).exception ∧
    (evaluate E mem f script exception).registers =
      (E.execute mem u (ExecState.mk f.m_scopeChain.globalObject f.m_registers)
        (thisObject mem f) f.m_scopeChain exception).registers ∧
    (evaluate E mem f script exception).calls.filter
        (fun c => match c with
          | Call.execute _ _ _ _ _ => true
          | _ => false) =
      [Call.execute u (ExecState.mk f.m_scopeChain.globalObject f.m_registers)
        (thisObject mem f) f.m_scopeChain exception] := by
  unfold evaluate
  simp only [hcb, hok]
  exact ⟨trivial, trivial, trivial, rfl⟩

/-- Claim C5 on the sample engine: the unit `this` yields the frame's receiver, and a
fault raised by the interpreter arrives in the exception slot. -/
theorem evaluate_runs_execute_witness :
    (functionFrame.m_codeBlock = some (CodeBlock.mk 0) ∧
      (sampleEngine.parse
        (ExecState.mk functionFrame.m_scopeChain.globalObject functionFrame.m_registers) "" 1
        (UStringSourceProvider.create "throw 0")).node = some (EvalNode.mk "throw 0")) ∧
    (evaluate sampleEngine sampleStore functionFrame "throw 0" none).value = none ∧
    (evaluate sampleEngine sampleStore functionFrame "throw 0" none).exception =
      some (JSValue.number 0) ∧
    (evaluate sampleEngine sampleStore functionFrame "this" none).value =
      some (JSValue.object 100) := by
  have h := evaluate_runs_execute sampleEngine sampleStore functionFrame "throw 0" none
    (CodeBlock.mk 0) (EvalNode.mk "throw 0") rfl rfl
  exact ⟨⟨rfl, rfl⟩, h.1, h.2.1, by decide⟩

/-- Claim C6: for a frame that has a code layout there is one temporary execution state,
whose global object is the global object of the frame's scope chain and whose register
window is the frame's own register pointer (reading any register through it reads the
frame's cell), such that for every parser and interpreter the outcome of `evaluate` is
what they answer when handed that state: the verdict and the error are those of the
parser run on it, and value, exception slot and registers are those of the interpreter
run on it over the live register store; every recorded call received that same state. -/
theorem evaluate_shares_global_and_registers (E : Engine) (mem : RegisterStore)
    (f : DebuggerCallFrame) (script : UString) (exception : Option JSValue)
    (cb : CodeBlock) (hcb : f.m_codeBlock = some cb) :
    ∃ newExec : ExecState,
      newExec.globalObject = f.m_scopeChain.globalObject ∧
      newExec.registers = f.m_registers ∧
      (∀ (store : RegisterStore) (i : Int),
        registerAt store newExec.registers i = registerAt store f.m_registers i) ∧
      ((E.parse newExec "" 1 (UStringSourceProvider.create script)).node = none →
        (evaluate E mem f script exception).value =
          some (Error.create newExec ErrorType.SyntaxError
            (E.parse newExec "" 1 (UStringSourceProvider.create script)).errMsg
            (E.parse newExec "" 1 (UStringSourceProvider.create script)).errLine
            (E.parse newExec "" 1 (UStringSourceProvider.create script)).sourceId none) ∧
        (evaluate E mem f script exception).registers = mem) ∧
      (∀ u : EvalNode,
        (E.parse newExec "" 1 (UStringSourceProvider.create script)).node = some u →
        (evaluate E mem f script exception).value =
          (E.execute mem u newExec (thisObject mem f) f.m_scopeChain exception).value ∧
        (evaluate E mem f script exception).exception =
          (E.execute mem u newExec (thisObject mem f) f.m_scopeChain exception).exception ∧
        (evaluate E mem f script exception).registers =
          (E.execute mem u newExec (thisObject mem f) f.m_scopeChain exception).registers) ∧
      (evaluate E mem f script exception).calls ≠ [] ∧
      (∀ c ∈ (evaluate E mem f script exception).calls, c.exec = newExec) := by
  refine ⟨ExecState.mk f.m_scopeChain.globalObject f.m_registers, rfl, rfl,
    fun _ _ => rfl, ?_, ?_, ?_, ?_⟩
  · intro hrej
    unfold evaluate
    simp only [hcb, hrej]
    exact ⟨trivial, trivial⟩
  · intro u hok
    unfold evaluate
    simp only [hcb, hok]
    exact ⟨trivial, trivial, trivial⟩
  · unfold evaluate
    simp only [hcb]
    cases (E.parse (ExecState.mk f.m_scopeChain.globalObject f.m_registers) "" 1
        (UStringSourceProvider.create script)).node <;> simp
  · unfold evaluate
    simp only [hcb]
    cases (E.parse (ExecState.mk f.m_scopeChain.globalObject f.m_registers) "" 1
        (UStringSourceProvider.create script)).node with
    | none =>
      intro c hc
      simp only [List.mem_singleton] at hc
      subst hc
      rfl
    | some u =>
      intro c hc
      simp only [List.mem_cons, List.mem_singleton, List.not_mem_nil, or_false] at hc
      rcases hc with hc | hc <;> subst hc <;> rfl

/-- Claim C6 on the probing engine, whose interpreter reports the state it is handed: on
the function frame (global object 7, registers at address 10) it returns the pointer 10
and raises global object 7, and the 42 it stores in register 0 of its window is what the
frame's own receiver register then holds. -/
theorem evaluate_shares_global_and_registers_witness :
    functionFrame.m_codeBlock = some (CodeBlock.mk 0) ∧
    (evaluate probeEngine sampleStore functionFrame "x" none).value =
      some (JSValue.number 10) ∧
    (evaluate probeEngine sampleStore functionFrame "x" none).exception =
      some (JSValue.object 7) ∧
    thisObject (evaluate probeEngine sampleStore functionFrame "x" none).registers
      functionFrame = some (JSValue.number 42) := by
  obtain ⟨st, hg, hr, -, -, hacc, -, -⟩ :=
    evaluate_shares_global_and_registers probeEngine sampleStore functionFrame "x" none
      (CodeBlock.mk 0) rfl
  cases st with
  | mk g r =>
    simp only at hg hr
    subst hg
    subst hr
    have h := hacc (EvalNode.mk "x") (by decide)
    refine ⟨rfl, h.1, h.2.1, ?_⟩
    rw [h.2.2]
    decide

/-! ## The frame inspector -/

/-- Claim C8, refuted as stated: the program frame has a code layout, yet its
`thisObject()` is absent, because its receiver register is empty. -/
theorem thisObject_absent_iff_counterexample :
    ¬ (thisObject sampleStore programFrame = none ↔ programFrame.m_codeBlock = none) := by
  decide

/-- Claim C8, amended: `thisObject()` is absent if and only if the frame has no code
layout or the receiver register named by its code layout is empty; in particular it is
absent for every frame with no code layout. -/
theorem thisObject_absent_iff (mem : RegisterStore) (f : DebuggerCallFrame) :
    (thisObject mem f = none ↔
      f.m_codeBlock = none ∨
      ∃ cb, f.m_codeBlock = some cb ∧
        (registerAt mem f.m_registers cb.thisRegister).getJSValue = none) ∧
    (f.m_codeBlock = none → thisObject mem f = none) := by
  unfold thisObject
  cases f.m_codeBlock with
  | none => simp
  | some cb => simp

/-- The amended C8 on the sample frames: absent without a code layout, absent with a code
layout over an empty receiver register, present over a populated one. -/
theorem thisObject_absent_iff_witness :
    thisObject sampleStore nativeFrame = none ∧
    thisObject sampleStore programFrame = none ∧
    thisObject sampleStore functionFrame ≠ none :=
  ⟨(thisObject_absent_iff sampleStore nativeFrame).2 rfl,
    (thisObject_absent_iff sampleStore programFrame).1.mpr
      (Or.inr ⟨CodeBlock.mk 0, rfl, by decide⟩),
    fun h => by
      rcases (thisObject_absent_iff sampleStore functionFrame).1.mp h with h1 | ⟨cb, h1, h2⟩
      · exact absurd h1 (by decide)
      · cases h1
        exact absurd h2 (by decide)⟩

/-- Claim C9: for a frame that has a code layout, `thisObject()` is the value stored in
the register whose index is the layout's `thisRegister`. -/
theorem thisObject_reads_thisRegister (mem : RegisterStore) (f : DebuggerCallFrame)
    (cb : CodeBlock) (hcb : f.m_codeBlock = some cb) :
    thisObject mem f = (registerAt mem f.m_registers cb.thisRegister).getJSValue := by
  unfold thisObject
  rw [hcb]

/-- Claim C9 on two frames over the same registers whose layouts name registers 0 and 1:
each returns the value at its own index. -/
theorem thisObject_reads_thisRegister_witness :
    (functionFrame.m_codeBlock = some (CodeBlock.mk 0) ∧
      functionFrameThis1.m_codeBlock = some (CodeBlock.mk 1) ∧
      functionFrame.m_registers = functionFrameThis1.m_registers) ∧
    thisObject sampleStore functionFrame = some (JSValue.object 100) ∧
    thisObject sampleStore functionFrameThis1 = some (JSValue.object 101) :=
  ⟨⟨rfl, rfl, rfl⟩,
    thisObject_reads_thisRegister sampleStore functionFrame (CodeBlock.mk 0) rfl,
    thisObject_reads_thisRegister sampleStore functionFrameThis1 (CodeBlock.mk 1) rfl⟩

/-- Claim C10: `functionName()` is absent if and only if the frame has no code layout or
its callee slot is empty; otherwise it is present and is the name bound to the callee, so
that an empty-string name is a present result, distinct from absence. The function is
total: it yields one of these outcomes on every frame. -/
theorem functionName_absent_iff (E : Engine) (mem : RegisterStore)
    (f : DebuggerCallFrame) :
    (functionName E mem f = none ↔ f.m_codeBlock = none ∨ calleeValue E mem f = none) ∧
    (∀ cb v, f.m_codeBlock = some cb → calleeValue E mem f = some v →
      functionName E mem f = some (E.name v f.m_exec)) ∧
    (∀ cb v, f.m_codeBlock = some cb → calleeValue E mem f = some v →
      E.name v f.m_exec = "" →
      functionName E mem f = some "" ∧ functionName E mem f ≠ none) := by
  unfold functionName calleeValue
  cases f.m_codeBlock with
  | none => simp
  | some cb =>
    cases (registerAt mem f.m_registers E.Callee).getJSValue with
    | none => simp
    | some v =>
      refine ⟨by simp, ?_, ?_⟩
      · intro _ w _ hw
        cases hw
        rfl
      · intro _ w _ hw hname
        cases hw
        simp [hname]

/-- Claim C10 on the sample frames: the callee named `f`, the callee with the empty name
(present, not absent), the frame without code layout and the frame with an empty callee
slot. -/
theorem functionName_absent_iff_witness :
    functionName sampleEngine sampleStore functionFrame = some "f" ∧
    (functionName sampleEngine sampleStore anonymousFrame = some "" ∧
      functionName sampleEngine sampleStore anonymousFrame ≠ none) ∧
    functionName sampleEngine sampleStore nativeFrame = none ∧
    functionName sampleEngine sampleStore programFrame = none :=
  ⟨(functionName_absent_iff sampleEngine sampleStore functionFrame).2.1 (CodeBlock.mk 0)
      (JSValue.function 1 "f") rfl (by decide),
    (functionName_absent_iff sampleEngine sampleStore anonymousFrame).2.2 (CodeBlock.mk 0)
      (JSValue.function 2 "") rfl (by decide) rfl,
    (functionName_absent_iff sampleEngine sampleStore nativeFrame).1.mpr (Or.inl rfl),
    (functionName_absent_iff sampleEngine sampleStore programFrame).1.mpr
      (Or.inr (by decide))⟩

/-! ## The host evaluation surface -/

/-- Claim C11: `JSCheckScriptSyntax` parses without executing: its one collaborator call
is the parser call. When the parser rejects the source it returns false and a caller who
supplied an exception output finds a Syntax-kind error there, carrying the parser's line
and message; when the parser accepts the source it returns true and the exception output
is left as it was. -/
theorem checkScriptSyntax_flag_and_exception (H : HostEngine) (ctx : ExecState)
    (script : UString) (sourceURL : Option UString) (startingLineNumber : Int)
    (slot : Option JSValue) :
    ((H.parse ctx (sourceURL.getD "") (max startingLineNumber 1)
        (UStringSourceProvider.create script)).node = none →
      (JSCheckScriptSyntax H ctx script sourceURL startingLineNumber (some slot)).result
        = false ∧
      (JSCheckScriptSyntax H ctx script sourceURL startingLineNumber (some slot)).exception
        = some (some (JSValue.error ErrorType.SyntaxError
            (H.parse ctx (sourceURL.getD "") (max startingLineNumber 1)
              (UStringSourceProvider.create script)).errMsg
            (H.parse ctx (sourceURL.getD "") (max startingLineNumber 1)
              (UStringSourceProvider.create script)).errLine
            (H.parse ctx (sourceURL.getD "") (max startingLineNumber 1)
              (UStringSourceProvider.create script)).sourceId sourceURL)) ∧
      (JSCheckScriptSyntax H ctx script sourceURL startingLineNumber none).result = false) ∧
    ((H.parse ctx (sourceURL.getD "") (max startingLineNumber 1)
        (UStringSourceProvider.create script)).node ≠ none →
      (JSCheckScriptSyntax H ctx script sourceURL startingLineNumber (some slot)).result
        = true ∧
      (JSCheckScriptSyntax H ctx script sourceURL startingLineNumber (some slot)).exception
        = some slot ∧
      (JSCheckScriptSyntax H ctx script sourceURL startingLineNumber none).result = true) ∧
    (JSCheckScriptSyntax H ctx script sourceURL startingLineNumber (some slot)).calls =
      [HostCall.parse ctx (sourceURL.getD "") (max startingLineNumber 1)
        (UStringSourceProvider.create script)] ∧
    (∀ c ∈ (JSCheckScriptSyntax H ctx script sourceURL startingLineNumber (some slot)).calls,
      c.isExecute = false) := by
  unfold JSCheckScriptSyntax
  cases hp : (H.parse ctx (sourceURL.getD "") (max startingLineNumber 1)
      (UStringSourceProvider.create script)).node with
  | none => simp [hp, Error.create, HostCall.isExecute]
  | some u => simp [hp, HostCall.isExecute]

/-- Claim C11 on the sample host engine: `function(){` is rejected, giving false and a
Syntax-kind error in the empty slot; `1+1` is accepted, giving true and a slot that stays
empty. -/
theorem checkScriptSyntax_flag_and_exception_witness :
    ((JSCheckScriptSyntax sampleHost sampleExec "function()\x7b" none 1 (some none)).result
        = false ∧
      (JSCheckScriptSyntax sampleHost sampleExec "function()\x7b" none 1 (some none)).exception
        = some (some (JSValue.error ErrorType.SyntaxError "Parse error" 1 1 none))) ∧
    (JSCheckScriptSyntax sampleHost sampleExec "1+1" none 1 (some none)).result = true ∧
    (JSCheckScriptSyntax sampleHost sampleExec "1+1" none 1 (some none)).exception
      = some none := by
  have hbad := (checkScriptSyntax_flag_and_exception sampleHost sampleExec "function()\x7b"
    none 1 none).1 (by decide)
  have hgood := (checkScriptSyntax_flag_and_exception sampleHost sampleExec "1+1"
    none 1 none).2.1 (by decide)
  exact ⟨⟨hbad.1, hbad.2.1⟩, hgood.1, hgood.2.1⟩

/-- The evaluator over an engine without parser state agrees with `evaluate`: same
result, same exception slot, same registers. -/
theorem evaluateStateful_stateful (E : Engine) (mem : RegisterStore)
    (f : DebuggerCallFrame) (script : UString) (exception : Option JSValue) :
    (evaluateStateful E.stateful mem f script exception).value =
      (evaluate E mem f script exception).value ∧
    (evaluateStateful E.stateful mem f script exception).exception =
      (evaluate E mem f script exception).exception ∧
    (evaluateStateful E.stateful mem f script exception).world =
      (evaluate E mem f script exception).registers := by
  unfold evaluateStateful evaluate Engine.stateful
  cases f.m_codeBlock with
  | none => exact ⟨rfl, rfl, rfl⟩
  | some cb =>
    simp only
    cases (E.parse (ExecState.mk f.m_scopeChain.globalObject f.m_registers) "" 1
        (UStringSourceProvider.create script)).node with
    | none => exact ⟨rfl, rfl, rfl⟩
    | some u => exact ⟨rfl, rfl, rfl⟩

/-- Claim C13: for a frame that has a code layout, over any parser and interpreter with
state, one call of `evaluate` leaves the engine in the state reached by exactly one parser
call when the parse fails (no interpreter call, no second parse, the error of that one
parse returned, the exception slot as on entry), and in the state reached by that one
parser call followed by exactly one interpreter call when the parse succeeds, with the
result and exception slot of that one interpreter call. On an engine whose only state is
the register storage this evaluator and `evaluate` give the same result, exception slot
and registers, and the call log of `evaluate` has one parser entry and one or no
interpreter entry accordingly. -/
theorem evaluate_calls_once {W : Type} (S : StatefulEngine W) (w : W) (E : Engine)
    (mem : RegisterStore) (f : DebuggerCallFrame) (script : UString)
    (exception : Option JSValue) (cb : CodeBlock) (hcb : f.m_codeBlock = some cb) :
    ((S.parse w (ExecState.mk f.m_scopeChain.globalObject f.m_registers) "" 1
        (UStringSourceProvider.create script)).1.node = none →
      (evaluateStateful S w f script exception).world =
        (S.parse w (ExecState.mk f.m_scopeChain.globalObject f.m_registers) "" 1
          (UStringSourceProvider.create script)).2 ∧
      (evaluateStateful S w f script exception).value =
        some (JSValue.error ErrorType.SyntaxError
          (S.parse w (ExecState.mk f.m_scopeChain.globalObject f.m_registers) "" 1
            (UStringSourceProvider.create script)).1.errMsg
          (S.parse w (ExecState.mk f.m_scopeChain.globalObject f.m_registers) "" 1
            (UStringSourceProvider.create script)).1.errLine
          (S.parse w (ExecState.mk f.m_scopeChain.globalObject f.m_registers) "" 1
            (UStringSourceProvider.create script)).1.sourceId none) ∧
      (evaluateStateful S w f script exception).exception = exception) ∧
    (∀ u : EvalNode,
      (S.parse w (ExecState.mk f.m_scopeChain.globalObject f.m_registers) "" 1
        (UStringSourceProvider.create script)).1.node = some u →
      (evaluateStateful S w f script exception).world =
        (S.execute
          (S.parse w (ExecState.mk f.m_scopeChain.globalObject f.m_registers) "" 1
            (UStringSourceProvider.create script)).2
          u (ExecState.mk f.m_scopeChain.globalObject f.m_registers)
          (thisObject (S.registers
            (S.parse w (ExecState.mk f.m_scopeChain.globalObject f.m_registers) "" 1
              (UStringSourceProvider.create script)).2) f)
          f.m_scopeChain exception).2 ∧
      (evaluateStateful S w f script exception).value =
        (S.execute
          (S.parse w (ExecState.mk f.m_scopeChain.globalObject f.m_registers) "" 1
            (UStringSourceProvider.create script)).2
          u (ExecState.mk f.m_scopeChain.globalObject f.m_registers)
          (thisObject (S.registers
            (S.parse w (ExecState.mk f.m_scopeChain.globalObject f.m_registers) "" 1
              (UStringSourceProvider.create script)).2) f)
          f.m_scopeChain exception).1.value ∧
      (evaluateStateful S w f script exception).exception =
        (S.execute
          (S.parse w (ExecState.mk f.m_scopeChain.globalObject f.m_registers) "" 1
            (UStringSourceProvider.create script)).2
          u (ExecState.mk f.m_scopeChain.globalObject f.m_registers)
          (thisObject (S.registers
            (S.parse w (ExecState.mk f.m_scopeChain.globalObject f.m_registers) "" 1
              (UStringSourceProvider.create script)).2) f)
          f.m_scopeChain exception).1.exception) ∧
    ((evaluateStateful E.stateful mem f script exception).value =
        (evaluate E mem f script exception).value ∧
      (evaluateStateful E.stateful mem f script exception).exception =
        (evaluate E mem f script exception).exception ∧
      (evaluateStateful E.stateful mem f script exception).world =
        (evaluate E mem f script exception).registers) ∧
    ((evaluate E mem f script exception).calls.filter Call.isParse).length = 1 ∧
    ((evaluate E mem f script exception).calls.filter Call.isExecute).length =
      (if (E.parse (ExecState.mk f.m_scopeChain.globalObject f.m_registers) "" 1
          (UStringSourceProvider.create script)).node.isSome then 1 else 0) ∧
    (evaluate E mem f script exception).calls.length ≤ 2 := by
  refine ⟨?_, ?_, evaluateStateful_stateful E mem f script exception, ?_⟩
  · intro hrej
    unfold evaluateStateful
    simp only [hcb, hrej, Error.create]
    exact ⟨trivial, trivial, trivial⟩
  · intro u hok
    unfold evaluateStateful
    simp only [hcb, hok]
    exact ⟨trivial, trivial, trivial⟩
  · unfold evaluate
    simp only [hcb]
    cases hp : (E.parse (ExecState.mk f.m_scopeChain.globalObject f.m_registers) "" 1
        (UStringSourceProvider.create script)).node with
    | none => simp [Call.isParse, Call.isExecute]
    | some u => simp [Call.isParse, Call.isExecute]

/-- Claim C13 on the counting engine, started with both counters at 0: after the accepted
snippet `1+1` one parser call and one interpreter call have been made, after the rejected
snippet `(` one parser call and no interpreter call. -/
theorem evaluate_calls_once_witness :
    functionFrame.m_codeBlock = some (CodeBlock.mk 0) ∧
    (evaluateStateful countingEngine (0, 0) functionFrame "1+1" none).world = (1, 1) ∧
    (evaluateStateful countingEngine (0, 0) functionFrame "1+1" none).value =
      some (JSValue.number 2) ∧
    (evaluateStateful countingEngine (0, 0) functionFrame "(" none).world = (1, 0) ∧
    ((evaluate sampleEngine sampleStore functionFrame "1+1" none).calls.filter
      Call.isExecute).length = 1 ∧
    ((evaluate sampleEngine sampleStore functionFrame "(" none).calls.filter
      Call.isExecute).length = 0 := by
  have h1 := evaluate_calls_once countingEngine (0, 0) sampleEngine sampleStore
    functionFrame "1+1" none (CodeBlock.mk 0) rfl
  have h2 := evaluate_calls_once countingEngine (0, 0) sampleEngine sampleStore
    functionFrame "(" none (CodeBlock.mk 0) rfl
  have hacc := h1.2.1 (EvalNode.mk "1+1") (by decide)
  exact ⟨rfl, hacc.1, hacc.2.1, (h2.1 (by decide)).1, h1.2.2.2.2.1, h2.2.2.2.2.1⟩

/-- Claim C14: for a frame that has a code layout, the one parser call of `evaluate` is
`parse<EvalNode>` on the temporary execution state, with the empty source URL, starting
line 1 and the caller's source text unchanged; an accepted unit reaches the interpreter
as that `EvalNode`, and on rejection the line of the reported error is the line the
parser computed from starting line 1. -/
theorem evaluate_parser_arguments (E : Engine) (mem : RegisterStore)
    (f : DebuggerCallFrame) (script : UString) (exception : Option JSValue)
    (cb : CodeBlock) (hcb : f.m_codeBlock = some cb) :
    (evaluate E mem f script exception).calls.head? =
      some (Call.parse (ExecState.mk f.m_scopeChain.globalObject f.m_registers) "" 1
        (SourceProvider.mk script)) ∧
    (evaluate E mem f script exception).calls.filter Call.isParse =
      [Call.parse (ExecState.mk f.m_scopeChain.globalObject f.m_registers) "" 1
        (SourceProvider.mk script)] ∧
    (∀ u : EvalNode,
      (E.parse (ExecState.mk f.m_scopeChain.globalObject f.m_registers) "" 1
        (SourceProvider.mk script)).node = some u →
      (evaluate E mem f script exception).calls.filter Call.isExecute =
        [Call.execute u (ExecState.mk f.m_scopeChain.globalObject f.m_registers)
          (thisObject mem f) f.m_scopeChain exception]) ∧
    ((E.parse (ExecState.mk f.m_scopeChain.globalObject f.m_registers) "" 1
        (SourceProvider.mk script)).node = none →
      ∃ msg sid url, (evaluate E mem f script exception).value =
        some (JSValue.error ErrorType.SyntaxError msg
          (E.parse (ExecState.mk f.m_scopeChain.globalObject f.m_registers) "" 1
            (SourceProvider.mk script)).errLine sid url)) := by
  unfold evaluate
  simp only [hcb, UStringSourceProvider.create]
  cases hp : (E.parse (ExecState.mk f.m_scopeChain.globalObject f.m_registers) "" 1
      (SourceProvider.mk script)).node with
  | none =>
    refine ⟨by simp, by simp [Call.isParse], by simp, ?_⟩
    intro _
    exact ⟨_, _, _, rfl⟩
  | some u =>
    refine ⟨by simp, by simp [Call.isParse], ?_, by simp⟩
    intro w hw
    cases hw
    simp [Call.isExecute]

/-- Claim C14 on the sample engine: the parser receives the state of global object 7 and
register pointer 10, the empty URL, line 1 and the text `(` itself, and the error that
comes back has line 1. -/
theorem evaluate_parser_arguments_witness :
    functionFrame.m_codeBlock = some (CodeBlock.mk 0) ∧
    (evaluate sampleEngine sampleStore functionFrame "(" none).calls.head? =
      some (Call.parse (ExecState.mk (JSGlobalObject.mk 7) 10) "" 1 (SourceProvider.mk "(")) ∧
    ∃ msg sid url, (evaluate sampleEngine sampleStore functionFrame "(" none).value =
      some (JSValue.error ErrorType.SyntaxError msg 1 sid url) := by
  have h := evaluate_parser_arguments sampleEngine sampleStore functionFrame "(" none
    (CodeBlock.mk 0) rfl
  exact ⟨rfl, h.1, h.2.2.2 rfl⟩

/-- Claim C15: when the frame has no code layout or the parser rejects the text, the
exception slot after `evaluate` is identical to its content on entry; whenever the slot
differs from its entry content, the interpreter was called. -/
theorem evaluate_slot_written_only_by_execute (E : Engine) (mem : RegisterStore)
    (f : DebuggerCallFrame) (script : UString) (exception : Option JSValue) :
    ((f.m_codeBlock = none ∨
        (E.parse (ExecState.mk f.m_scopeChain.globalObject f.m_registers) "" 1
          (UStringSourceProvider.create script)).node = none) →
      (evaluate E mem f script exception).exception = exception) ∧
    ((evaluate E mem f script exception).exception ≠ exception →
      ∃ c ∈ (evaluate E mem f script exception).calls, c.isExecute = true) := by
  unfold evaluate
  cases hcb : f.m_codeBlock with
  | none => simp
  | some cb =>
    cases hp : (E.parse (ExecState.mk f.m_scopeChain.globalObject f.m_registers) "" 1
        (UStringSourceProvider.create script)).node with
    | none => simp [hp]
    | some u => simp [hp, Call.isExecute]

/-- Claim C15 on the sample engine, with the number 5 in the slot on entry: the slot is
unchanged on the frame without code layout and on the rejected snippet `(`. -/
theorem evaluate_slot_written_only_by_execute_witness :
    (evaluate sampleEngine sampleStore nativeFrame "1+1" (some (JSValue.number 5))).exception
      = some (JSValue.number 5) ∧
    (evaluate sampleEngine sampleStore functionFrame "(" (some (JSValue.number 5))).exception
      = some (JSValue.number 5) :=
  ⟨(evaluate_slot_written_only_by_execute sampleEngine sampleStore nativeFrame "1+1"
      (some (JSValue.number 5))).1 (Or.inl rfl),
    (evaluate_slot_written_only_by_execute sampleEngine sampleStore functionFrame "("
      (some (JSValue.number 5))).1 (Or.inr rfl)⟩

/-! ## Consistency of the identity queries -/

/-- Claim C16: on every frame a present `functionName()` implies that `type()` is
Function; the converse fails, since every frame with no code layout and a non-empty
callee slot is classified Function while its `functionName()` is absent, and such a frame
exists. -/
theorem functionName_present_implies_function :
    (∀ (E : Engine) (mem : RegisterStore) (f : DebuggerCallFrame),
      functionName E mem f ≠ none → type E mem f = FrameType.FunctionType) ∧
    (∀ (E : Engine) (mem : RegisterStore) (f : DebuggerCallFrame),
      f.m_codeBlock = none → calleeValue E mem f ≠ none →
      type E mem f = FrameType.FunctionType ∧ functionName E mem f = none) ∧
    ¬ (∀ (E : Engine) (mem : RegisterStore) (f : DebuggerCallFrame),
      type E mem f = FrameType.FunctionType → functionName E mem f ≠ none) := by
  refine ⟨?_, ?_, ?_⟩
  · intro E mem f h
    unfold functionName at h
    unfold type
    cases hcb : f.m_codeBlock with
    | none => simp [hcb] at h
    | some cb =>
      cases hv : (registerAt mem f.m_registers E.Callee).getJSValue with
      | none => simp [hcb, hv] at h
      | some v => rfl
  · intro E mem f hcb hv
    unfold calleeValue at hv
    unfold type functionName
    cases hc : (registerAt mem f.m_registers E.Callee).getJSValue with
    | none => exact absurd hc hv
    | some v => simp [hcb]
  · intro h
    exact h sampleEngine sampleStore nativeFrame (by decide) (by decide)

/-- Claim C16 on the sample frames: the function frame has a name and is a Function; the
frame without code layout is a Function with no name. -/
theorem functionName_present_implies_function_witness :
    type sampleEngine sampleStore functionFrame = FrameType.FunctionType ∧
    type sampleEngine sampleStore nativeFrame = FrameType.FunctionType ∧
    functionName sampleEngine sampleStore nativeFrame = none :=
  ⟨functionName_present_implies_function.1 sampleEngine sampleStore functionFrame
      (by decide),
    functionName_present_implies_function.2.1 sampleEngine sampleStore nativeFrame rfl
      (by decide)⟩

end JSC
